import Mathlib

/-!
Shallow embedding of `src/Experiment_8/roledbased_access.tsx`: the JWT helper
functions, the mock authentication backend, the axios-like request helper
(`createHttp`), the `AuthProvider` session operations (`login`, `logout`,
`tryRefresh`, `hasAnyRole`, and the localStorage persist effect), and the two
route guards (`RequireAuth`, `RequireRoles`).

Modelling conventions:
* JS epoch seconds are `Int` (`Math.floor(Date.now() / 1000)` is nonnegative in
  reality; theorems that need this take `0 ≤ now` as a hypothesis).
* A JWT string is modelled by the inductive `Token`: `Token.payload h p s`
  stands for a string `h ++ "." ++ btoa(JSON.stringify p) ++ "." ++ s` whose
  middle segment decodes to the claims record `p`; `Token.malformed s` stands
  for any string whose middle segment fails `atob`/`JSON.parse`.  Structural
  equality of `Token` coincides with string equality of the modelled strings
  (the claims-to-JSON encoding is deterministic and injective).
* `undefined`/`null` function arguments are modelled with `Option`; JS
  falsiness of the empty string and of the number `0` is spelled out at each
  use site, following the source line by line.
* React state updates: `setUser`/`setAccessToken` schedule a commit; the
  persist effect (`useEffect` with deps `[user, accessToken]`) re-runs after a
  commit exactly when the dependency pair changed under `Object.is`.  For
  strings and `null`, `Object.is` is value equality (decidable equality on the
  model); a successful login stores a freshly allocated user object, which is
  never `Object.is`-equal to the previous one, so the effect always re-runs
  after a successful login.  Each operation below is modelled together with
  the commit it triggers, as a pure function on `AppState`.
-/

/-- The user record built by `MockAPI.login`: `{ id: 1, name: username, roles }`. -/
structure User where
  id : Int
  name : String
  roles : List String
deriving DecidableEq, Repr

/-- The claims record embedded in a token payload:
`{ sub, name, roles, exp }`; `exp` is optional because `isExpired` treats a
missing `exp` specially. -/
structure Claims where
  sub : Int
  name : String
  roles : List String
  exp : Option Int
deriving DecidableEq, Repr

/-- A JWT-shaped string.  `payload h p s` is a string whose middle dot-segment
base64-decodes to the JSON of `p` (with header text `h` and signature text
`s`); `malformed s` is any other string, on which `decodeJWT` fails. -/
inductive Token where
  | malformed (s : String) : Token
  | payload (header : String) (p : Claims) (sig : String) : Token
deriving DecidableEq, Repr

/-- Embeds `decodeJWT` (lines 20-27): split on ".", take the middle segment,
`JSON.parse(atob(...))`; any failure is caught and yields `null`. -/
def decodeJWT : Token → Option Claims
  | .malformed _ => none
  | .payload _ p _ => some p

/-- Embeds `isExpired` (lines 29-34).  JS `!p?.exp` is true when `exp` is
absent *or* is the falsy number `0`; otherwise the code returns `p.exp <= now`. -/
def isExpired (token : Token) (now : Int) : Bool :=
  match decodeJWT token with
  | none => true
  | some p =>
    match p.exp with
    | none => true
    | some e => if e = 0 then true else decide (e ≤ now)

/-- Result record of `MockAPI.login`: `{ user, accessToken, refreshToken }`. -/
structure LoginResult where
  user : User
  accessToken : Token
  refreshToken : String
deriving DecidableEq, Repr

/-- Embeds the role-assignment conditional inside `MockAPI.login`
(lines 44-48): roles are chosen from the username alone. -/
def rolesFor (username : String) : List String :=
  if username = "admin" then ["ADMIN", "USER"]
  else if username = "mod" ∨ username = "moderator" then ["MODERATOR", "USER"]
  else ["USER"]

/-- Embeds `MockAPI.login` (lines 39-57).  `password` is `Option` because JS
callers may pass `undefined`; `!password` also catches the falsy empty string
(which the `length < 6` test would reject anyway).  `rnd` stands for the
output of `cryptoRandom()` and `now` for `Math.floor(Date.now() / 1000)`. -/
def MockAPI.login (username : String) (password : Option String) (rnd : String)
    (now : Int) : Except String LoginResult :=
  match password with
  | none => .error "Invalid credentials"
  | some pw =>
    if pw = "" ∨ pw.length < 6 then .error "Invalid credentials"
    else
      let roles := rolesFor username
      let user : User := ⟨1, username, roles⟩
      .ok ⟨user, .payload "header" ⟨1, username, roles, some (now + 60)⟩ "signature", rnd⟩

/-- Embeds the JS test `refreshToken.startsWith("x")` (line 61): with the
one-character argument "x" this is exactly "the first character is x".  It is
spelled on the character list because `String.startsWith` in core is defined
by well-founded recursion and does not reduce inside the kernel. -/
def startsWithX (r : String) : Bool :=
  match r.data with
  | [] => false
  | c :: _ => c = 'x'

/-- Embeds `MockAPI.refresh` (lines 59-70).  JS `!refreshToken` rejects
`null`/`undefined` and the falsy empty string; otherwise a token starting with
"x" is rejected with status 401.  On success the new access token always
carries `{ sub: 1, name: "demo", roles: ["USER"], exp: now + 60 }`. -/
def MockAPI.refresh (refreshToken : Option String) (now : Int) : Except Nat Token :=
  match refreshToken with
  | none => .error 401
  | some r =>
    if r = "" ∨ startsWithX r then .error 401
    else .ok (.payload "header" ⟨1, "demo", ["USER"], some (now + 60)⟩ "signature")

/-- Embeds `MockAPI.getSecret` (lines 72-76): always succeeds with the
templated payload string. -/
def MockAPI.getSecret (resource : String) : String :=
  "Top secret payload for " ++ resource

/-- In-memory session held by `AuthProvider`: the `user` and `accessToken`
React states plus the `refreshRef` ref (lines 130-132). -/
structure Session where
  user : Option User
  accessToken : Option Token
  refreshToken : Option String
deriving DecidableEq, Repr

/-- The empty session: all three fields absent. -/
def Session.empty : Session := ⟨none, none, none⟩

/-- Whole-app state: the in-memory session plus the localStorage `demo_auth`
entry.  `stored = none` means the key is absent from the store;
`stored = some s` means the key holds `JSON.stringify` of `s`. -/
structure AppState where
  session : Session
  stored : Option Session
deriving DecidableEq, Repr

/-- Embeds the `login` callback of `AuthProvider` (lines 153-159) together
with the persist effect (lines 148-151).  On a backend failure the thrown
error propagates to the caller and no state is touched.  On success the three
session fields are replaced; the freshly allocated user object is never
`Object.is`-equal to the previous state, so the persist effect re-runs and
overwrites the `demo_auth` entry with the new session. -/
def login (st : AppState) (username : String) (password : Option String)
    (rnd : String) (now : Int) : Except String User × AppState :=
  match MockAPI.login username password rnd now with
  | .error e => (.error e, st)
  | .ok res =>
    let s2 : Session := ⟨some res.user, some res.accessToken, some res.refreshToken⟩
    (.ok res.user, ⟨s2, some s2⟩)

/-- Embeds the `logout` callback (lines 161-166) together with the persist
effect (lines 148-151).  The handler clears the session and removes the
`demo_auth` entry; afterwards the persist effect re-runs exactly when the
`[user, accessToken]` dependency pair changed (here: when either was
non-null), re-writing the now-empty session over the removed entry. -/
def logout (st : AppState) : AppState :=
  if st.session.user = none ∧ st.session.accessToken = none then
    ⟨Session.empty, none⟩
  else
    ⟨Session.empty, some Session.empty⟩

/-- Embeds the `tryRefresh` callback (lines 168-176) together with the persist
effect.  On a backend failure the catch returns `false` and nothing is
touched.  On success `setAccessToken` replaces the access token; token strings
are compared by value under `Object.is`, so the persist effect re-runs exactly
when the new token string differs from the old one. -/
def tryRefresh (st : AppState) (now : Int) : Bool × AppState :=
  match MockAPI.refresh st.session.refreshToken now with
  | .error _ => (false, st)
  | .ok tok =>
    if st.session.accessToken = some tok then (true, st)
    else
      let s2 : Session := { st.session with accessToken := some tok }
      (true, ⟨s2, some s2⟩)

/-- Embeds the `hasAnyRole` callback (lines 178-185): an empty required-role
list passes; otherwise the required list must share a member with the roles of
the current user (`user?.roles ?? []`). -/
def hasAnyRole (user : Option User) (roles : List String) : Bool :=
  if roles.isEmpty then true
  else
    let current := match user with | none => [] | some u => u.roles
    roles.any fun r => current.contains r

/-- Response emulated by `fetchWithAuth`: status 401 carries the
`{ error: "Unauthorized" }` body (modelled as `none`), status 200 carries the
`getSecret` data. -/
structure Response where
  status : Nat
  data : Option String
deriving DecidableEq, Repr

/-- Embeds `fetchWithAuth` (lines 110-117).  With a missing or expired token
it answers 401 locally, without touching the backend; otherwise it calls
`MockAPI.getSecret`.  The second component counts `getSecret` invocations
(0 or 1). -/
def fetchWithAuth (url : String) (token : Option Token) (now : Int) : Response × Nat :=
  match token with
  | none => (⟨401, none⟩, 0)
  | some t =>
    if isExpired t now then (⟨401, none⟩, 0)
    else (⟨200, some (MockAPI.getSecret url)⟩, 1)

/-- Backend-call log of one `get` invocation: `MockAPI.getSecret` calls,
`MockAPI.refresh` calls, and `onUnauthorized` (logout) callback calls. -/
structure CallLog where
  resourceCalls : Nat
  refreshCalls : Nat
  unauthorizedCalls : Nat
deriving DecidableEq, Repr

/-- Embeds `createHttp(...).get` (lines 93-107) with
`getAccessToken = () => accessToken`, `onUnauthorized = logout` and
`tryRefresh` as wired in `AuthProvider` (line 188).  `getAccessToken` is a
closure over the `accessToken` const of the render that built the `http`
object, so the second `token = getAccessToken()` (line 103) yields the same
value captured at entry even after a successful refresh has scheduled a new
token — the retry runs with the stale token.  `t1`, `tr`, `t2` are the clock
readings at the first fetch, the refresh, and the retry fetch. -/
def httpGet (st : AppState) (url : String) (t1 tr t2 : Int) :
    Response × AppState × CallLog :=
  let token := st.session.accessToken
  let r1 := fetchWithAuth url token t1
  if r1.1.status ≠ 401 then (r1.1, st, ⟨r1.2, 0, 0⟩)
  else
    let rf := tryRefresh st tr
    if rf.1 = false then (r1.1, logout rf.2, ⟨r1.2, 1, 1⟩)
    else
      let r2 := fetchWithAuth url token t2
      if r2.1.status = 401 then (r2.1, logout rf.2, ⟨r1.2 + r2.2, 1, 1⟩)
      else (r2.1, rf.2, ⟨r1.2 + r2.2, 1, 0⟩)

/-- What a route guard renders: the neutral loading screen, a redirect, or the
nested route (`<Outlet />`). -/
inductive GateOutput where
  | checking : GateOutput
  | redirectLogin : GateOutput
  | redirectForbidden : GateOutput
  | outlet : GateOutput
deriving DecidableEq, Repr

/-- Embeds `RequireAuth` (lines 201-210): while `loading` it renders the
neutral message; then it redirects to `/login` unless a user and an unexpired
access token are present. -/
def RequireAuth (loading : Bool) (user : Option User) (accessToken : Option Token)
    (now : Int) : GateOutput :=
  if loading then .checking
  else
    match user, accessToken with
    | some _, some t => if isExpired t now then .redirectLogin else .outlet
    | _, _ => .redirectLogin

/-- Embeds `RequireRoles` (lines 212-218): redirects to `/403` unless
`hasAnyRole(roles)` passes. -/
def RequireRoles (user : Option User) (roles : List String) : GateOutput :=
  if hasAnyRole user roles then .outlet else .redirectForbidden

/-- Modelled from the spec: the route table of the file is truncated from the
provided source (the file ends inside the `Login` component, before the
`<Routes>` configuration), so the nesting of the two guards is not in `src/`.
Per the spec, the role gate "must only be evaluated after the authentication
gate has passed": a role-gated route renders `RequireRoles` inside the
`<Outlet />` of `RequireAuth`. -/
def guardedRoute (loading : Bool) (user : Option User) (accessToken : Option Token)
    (now : Int) (roles : List String) : GateOutput :=
  match RequireAuth loading user accessToken now with
  | .outlet => RequireRoles user roles
  | o => o

/-!  Theorems.  Each claim of the specification is settled by one theorem
below; shared helper lemmas come first. -/

/-- Helper: a token expired at time `t1` is still expired at any later `t2`. -/
theorem isExpired_mono (t : Token) {t1 t2 : Int} (h12 : t1 ≤ t2)
    (h : isExpired t t1 = true) : isExpired t t2 = true := by
  cases t with
  | malformed s => simp [isExpired, decodeJWT]
  | payload hd p sg =>
    cases hp : p.exp with
    | none => simp [isExpired, decodeJWT, hp]
    | some e =>
      by_cases he : e = 0
      · simp [isExpired, decodeJWT, hp, he]
      · simp [isExpired, decodeJWT, hp, he] at h ⊢
        omega

/-- C7: for every token `T` and nonnegative current time `now`, `isExpired T
now` is true iff `decodeJWT T` is null, or the claims lack an `exp` field, or
`exp ≤ now`; it is false exactly when the claims decode and `exp` is strictly
greater than `now`; and `decodeJWT` never raises, yielding null on malformed
input. -/
theorem isExpired_c7_spec (t : Token) (now : Int) (h : 0 ≤ now) :
    (isExpired t now = true ↔
      decodeJWT t = none ∨
      (∃ p, decodeJWT t = some p ∧ p.exp = none) ∨
      (∃ p e, decodeJWT t = some p ∧ p.exp = some e ∧ e ≤ now)) ∧
    (isExpired t now = false ↔
      ∃ p e, decodeJWT t = some p ∧ p.exp = some e ∧ now < e) ∧
    (∀ s, decodeJWT (Token.malformed s) = none) := by
  refine ⟨?_, ?_, fun s => rfl⟩ <;>
  · cases t with
    | malformed s => simp [isExpired, decodeJWT]
    | payload hd p sg =>
      cases hp : p.exp with
      | none => simp [isExpired, decodeJWT, hp]
      | some e =>
        by_cases he : e = 0
        · subst he
          simp [isExpired, decodeJWT, hp]
          try omega
        · simp [isExpired, decodeJWT, hp, he]
          try omega

/-- C7 witness: a concrete token with `exp = 50` is expired at time 100. -/
theorem isExpired_c7_witness :
    isExpired (Token.payload "header" ⟨1, "demo", ["USER"], some 50⟩ "signature") 100 = true :=
  (isExpired_c7_spec (Token.payload "header" ⟨1, "demo", ["USER"], some 50⟩ "signature")
      100 (by decide)).1.mpr
    (Or.inr (Or.inr ⟨⟨1, "demo", ["USER"], some 50⟩, 50, rfl, rfl, by decide⟩))

/-- C8: `hasAnyRole` passes on an empty required-role list (even with no
user); with a user present it passes iff the required list is empty or shares
a member with the roles of that user; with no user and a non-empty required
list it returns false (an ordinary boolean, no error). -/
theorem hasAnyRole_c8_spec (user : Option User) (roles : List String) :
    (roles = [] → hasAnyRole user roles = true) ∧
    (∀ u, user = some u →
      (hasAnyRole user roles = true ↔
        roles = [] ∨ ∃ r, r ∈ roles ∧ r ∈ u.roles)) ∧
    (roles ≠ [] → user = none → hasAnyRole user roles = false) := by
  refine ⟨?_, ?_, ?_⟩
  · rintro rfl
    simp [hasAnyRole]
  · rintro u rfl
    cases roles with
    | nil => simp [hasAnyRole]
    | cons r rs =>
      simp [hasAnyRole, List.any_eq_true]
  · rintro hr rfl
    cases roles with
    | nil => exact absurd rfl hr
    | cons r rs => simp [hasAnyRole]

/-- C8 witness: with no user, a singleton required-role list fails. -/
theorem hasAnyRole_c8_witness : hasAnyRole none ["ADMIN"] = false :=
  (hasAnyRole_c8_spec none ["ADMIN"]).2.2 (by decide) rfl

/-- C6: for every prior state, username, and password that is absent or
shorter than 6 characters, `login` surfaces the InvalidCredentials error to
the caller and leaves every part of the state (session fields and the
persisted snapshot) unchanged. -/
theorem login_c6_invalid (st : AppState) (username : String)
    (password : Option String) (rnd : String) (now : Int)
    (h : password = none ∨ ∃ p, password = some p ∧ p.length < 6) :
    (login st username password rnd now).1 = .error "Invalid credentials" ∧
    (login st username password rnd now).2 = st := by
  rcases h with rfl | ⟨p, rfl, hlen⟩
  · simp [login, MockAPI.login]
  · simp [login, MockAPI.login, hlen]

/-- C6 witness: the short password "abc" is rejected and the state survives
untouched. -/
theorem login_c6_witness :
    (login ⟨⟨none, none, none⟩, none⟩ "admin" (some "abc") "rnd" 100).1
        = .error "Invalid credentials" ∧
    (login ⟨⟨none, none, none⟩, none⟩ "admin" (some "abc") "rnd" 100).2
        = ⟨⟨none, none, none⟩, none⟩ :=
  login_c6_invalid ⟨⟨none, none, none⟩, none⟩ "admin" (some "abc") "rnd" 100
    (Or.inr ⟨"abc", rfl, by decide⟩)

/-- C10: for every username and any two accepted passwords (length at least
6), `MockAPI.login` returns the same user record, fully determined by the
username: id 1, name equal to the username, and roles admin ↦ [ADMIN, USER],
mod or moderator ↦ [MODERATOR, USER], otherwise [USER]. -/
theorem login_c10_password_independent (username p1 p2 rnd1 rnd2 : String)
    (now1 now2 : Int) (h1 : 6 ≤ p1.length) (h2 : 6 ≤ p2.length) :
    ∃ res1 res2 : LoginResult,
      MockAPI.login username (some p1) rnd1 now1 = .ok res1 ∧
      MockAPI.login username (some p2) rnd2 now2 = .ok res2 ∧
      res1.user = res2.user ∧
      res1.user = ⟨1, username,
        if username = "admin" then ["ADMIN", "USER"]
        else if username = "mod" ∨ username = "moderator" then ["MODERATOR", "USER"]
        else ["USER"]⟩ := by
  have hemp : ("" : String).length = 0 := rfl
  have hp1 : ¬(p1 = "" ∨ p1.length < 6) := by
    rintro (rfl | hlt) <;> omega
  have hp2 : ¬(p2 = "" ∨ p2.length < 6) := by
    rintro (rfl | hlt) <;> omega
  refine ⟨⟨⟨1, username, rolesFor username⟩,
      .payload "header" ⟨1, username, rolesFor username, some (now1 + 60)⟩ "signature", rnd1⟩,
    ⟨⟨1, username, rolesFor username⟩,
      .payload "header" ⟨1, username, rolesFor username, some (now2 + 60)⟩ "signature", rnd2⟩,
    ?_, ?_, rfl, rfl⟩
  · simp [MockAPI.login, hp1]
  · simp [MockAPI.login, hp2]

/-- C10 witness: two distinct 6+-character passwords yield the same admin
user. -/
theorem login_c10_witness :
    ∃ res1 res2 : LoginResult,
      MockAPI.login "admin" (some "secret123") "r1" 10 = .ok res1 ∧
      MockAPI.login "admin" (some "hunter2xyz") "r2" 20 = .ok res2 ∧
      res1.user = res2.user ∧
      res1.user = ⟨1, "admin",
        if ("admin" : String) = "admin" then ["ADMIN", "USER"]
        else if ("admin" : String) = "mod" ∨ ("admin" : String) = "moderator" then
          ["MODERATOR", "USER"]
        else ["USER"]⟩ :=
  login_c10_password_independent "admin" "secret123" "hunter2xyz" "r1" "r2" 10 20
    (by decide) (by decide)

/-- C5: a successful `tryRefresh` returns true and changes only the access
token of the session (user and refresh token are identical before and after);
`tryRefresh` succeeds exactly when the backend refresh succeeds, and on any
backend failure it returns false and mutates nothing at all. -/
theorem tryRefresh_c5_frame (st : AppState) (now : Int) :
    ((tryRefresh st now).1 = true →
      (tryRefresh st now).2.session.user = st.session.user ∧
      (tryRefresh st now).2.session.refreshToken = st.session.refreshToken) ∧
    ((tryRefresh st now).1 = false → (tryRefresh st now).2 = st) ∧
    (∀ tok, MockAPI.refresh st.session.refreshToken now = .ok tok →
      (tryRefresh st now).1 = true) ∧
    (∀ e, MockAPI.refresh st.session.refreshToken now = .error e →
      (tryRefresh st now).1 = false ∧ (tryRefresh st now).2 = st) := by
  cases h : MockAPI.refresh st.session.refreshToken now with
  | error e => simp [tryRefresh, h]
  | ok tok =>
    by_cases htok : st.session.accessToken = some tok <;>
      simp [tryRefresh, h, htok]

/-- C5 witness: refreshing a session holding the refresh token "rt" succeeds
and preserves the user and the refresh token. -/
theorem tryRefresh_c5_witness :
    (tryRefresh ⟨⟨some ⟨1, "alice", ["USER"]⟩, none, some "rt"⟩, none⟩ 100).2.session.user
        = some ⟨1, "alice", ["USER"]⟩ ∧
    (tryRefresh ⟨⟨some ⟨1, "alice", ["USER"]⟩, none, some "rt"⟩, none⟩ 100).2.session.refreshToken
        = some "rt" :=
  (tryRefresh_c5_frame ⟨⟨some ⟨1, "alice", ["USER"]⟩, none, some "rt"⟩, none⟩ 100).1
    (by decide)

/-- C9: every refresh token the backend accepts (present, non-empty, not
starting with "x") yields an access token whose decoded claims are exactly
sub 1, name "demo", roles [USER], expiry `now + 60` — independent of the
session user — and hence a session whose user holds other roles ends up, after
`tryRefresh`, with an access token whose embedded role set differs from the
role set of that user. -/
theorem refresh_c9_fixed (r : String) (now : Int)
    (h1 : r ≠ "") (h2 : startsWithX r = false) :
    MockAPI.refresh (some r) now =
      .ok (.payload "header" ⟨1, "demo", ["USER"], some (now + 60)⟩ "signature") ∧
    decodeJWT (.payload "header" ⟨1, "demo", ["USER"], some (now + 60)⟩ "signature") =
      some ⟨1, "demo", ["USER"], some (now + 60)⟩ ∧
    (∀ st : AppState, st.session.refreshToken = some r →
      (tryRefresh st now).1 = true ∧
      (tryRefresh st now).2.session.accessToken =
        some (.payload "header" ⟨1, "demo", ["USER"], some (now + 60)⟩ "signature")) ∧
    (∀ st : AppState, ∀ u : User, st.session.user = some u →
      st.session.refreshToken = some r → u.roles ≠ ["USER"] →
      ∃ tok p, (tryRefresh st now).2.session.accessToken = some tok ∧
        decodeJWT tok = some p ∧ p.roles ≠ u.roles) := by
  have hres : MockAPI.refresh (some r) now =
      .ok (.payload "header" ⟨1, "demo", ["USER"], some (now + 60)⟩ "signature") := by
    simp [MockAPI.refresh, h1, h2]
  have hacc : ∀ st : AppState, st.session.refreshToken = some r →
      (tryRefresh st now).1 = true ∧
      (tryRefresh st now).2.session.accessToken =
        some (.payload "header" ⟨1, "demo", ["USER"], some (now + 60)⟩ "signature") := by
    intro st hst
    by_cases htok : st.session.accessToken =
        some (.payload "header" ⟨1, "demo", ["USER"], some (now + 60)⟩ "signature") <;>
      simp [tryRefresh, hst, hres, htok]
  refine ⟨hres, rfl, hacc, ?_⟩
  intro st u hu hst hroles
  refine ⟨.payload "header" ⟨1, "demo", ["USER"], some (now + 60)⟩ "signature",
    ⟨1, "demo", ["USER"], some (now + 60)⟩, (hacc st hst).2, rfl, ?_⟩
  simpa using fun hcontra => hroles hcontra.symm

/-- C9 witness: refreshing with token "rt" in an admin session embeds role
set [USER], different from the roles of the admin user. -/
theorem refresh_c9_witness :
    ∃ tok p,
      (tryRefresh ⟨⟨some ⟨1, "admin", ["ADMIN", "USER"]⟩, none, some "rt"⟩, none⟩ 100).2.session.accessToken
          = some tok ∧
      decodeJWT tok = some p ∧
      p.roles ≠ (⟨1, "admin", ["ADMIN", "USER"]⟩ : User).roles :=
  (refresh_c9_fixed "rt" 100 (by decide) (by decide)).2.2.2
    ⟨⟨some ⟨1, "admin", ["ADMIN", "USER"]⟩, none, some "rt"⟩, none⟩
    ⟨1, "admin", ["ADMIN", "USER"]⟩ rfl rfl (by decide)

/-- C3: while session restoration is in flight (`loading = true`) the
authentication gate renders the neutral checking message, and a role-gated
route — which per the spec mounts the role gate only inside the outlet of the
authentication gate — renders that same neutral state: neither a redirect nor
a pass-through is emitted by either gate. -/
theorem guards_c3_loading (user : Option User) (accessToken : Option Token)
    (now : Int) (roles : List String) :
    RequireAuth true user accessToken now = .checking ∧
    guardedRoute true user accessToken now roles = .checking := by
  constructor <;> simp [RequireAuth, guardedRoute]

/-- C2 counterexample: starting from a logged-in admin session whose snapshot
is persisted, `logout` does NOT leave the snapshot deleted — the persist
effect re-writes an empty snapshot over the removed key — and a second
`logout` is NOT a no-op: it deletes that snapshot. -/
theorem logout_c2_counterexample :
    (logout ⟨⟨some ⟨1, "admin", ["ADMIN", "USER"]⟩, none, some "rt"⟩,
        some ⟨some ⟨1, "admin", ["ADMIN", "USER"]⟩, none, some "rt"⟩⟩).stored ≠ none ∧
    logout (logout ⟨⟨some ⟨1, "admin", ["ADMIN", "USER"]⟩, none, some "rt"⟩,
        some ⟨some ⟨1, "admin", ["ADMIN", "USER"]⟩, none, some "rt"⟩⟩) ≠
      logout ⟨⟨some ⟨1, "admin", ["ADMIN", "USER"]⟩, none, some "rt"⟩,
        some ⟨some ⟨1, "admin", ["ADMIN", "USER"]⟩, none, some "rt"⟩⟩ := by
  decide

/-- C2 amended: `logout` always leaves the in-memory session empty, but the
persisted snapshot is deleted only when the prior in-memory session already
had no user and no access token; otherwise the persist effect immediately
re-writes an empty snapshot over the removed key, and only a second `logout`
deletes it — `logout` is idempotent from the second application on. -/
theorem logout_c2_amended (st : AppState) :
    (logout st).session = Session.empty ∧
    (st.session.user = none ∧ st.session.accessToken = none →
      (logout st).stored = none) ∧
    (¬(st.session.user = none ∧ st.session.accessToken = none) →
      (logout st).stored = some Session.empty) ∧
    logout (logout (logout st)) = logout (logout st) := by
  by_cases h : st.session.user = none ∧ st.session.accessToken = none <;>
    simp [logout, h, Session.empty]

/-- C2 amended witness: from an already-empty committed state, `logout` does
delete the snapshot. -/
theorem logout_c2_amended_witness :
    (logout ⟨⟨none, none, none⟩, some ⟨none, none, none⟩⟩).stored = none :=
  (logout_c2_amended ⟨⟨none, none, none⟩, some ⟨none, none, none⟩⟩).2.1 ⟨rfl, rfl⟩

/-- C1 counterexample: with an expired access token and a backend-accepted
refresh token, `get` does contact the backend — the refresh operation is
invoked once — contradicting "zero backend calls: neither the
protected-resource operation nor the refresh operation is invoked". -/
theorem httpGet_c1_counterexample :
    isExpired (Token.payload "header" ⟨1, "demo", ["USER"], some 10⟩ "signature") 100 = true ∧
    (httpGet ⟨⟨some ⟨1, "demo", ["USER"]⟩,
        some (Token.payload "header" ⟨1, "demo", ["USER"], some 10⟩ "signature"),
        some "rt"⟩, none⟩ "secret" 100 100 100).2.2.refreshCalls = 1 := by
  decide

/-- C1 amended: with an absent or expired access token, `get` still returns
an Unauthorized outcome (status 401) and makes zero protected-resource calls,
but it invokes the refresh operation exactly once and fires the unauthorized
callback (logout) exactly once — the first fetch is answered 401 locally, the
retry after a successful refresh reuses the stale captured token and fails
again. -/
theorem httpGet_c1_amended (st : AppState) (url : String) (t1 tr t2 : Int)
    (h12 : t1 ≤ t2)
    (hexp : st.session.accessToken = none ∨
      ∃ t, st.session.accessToken = some t ∧ isExpired t t1 = true) :
    (httpGet st url t1 tr t2).1.status = 401 ∧
    (httpGet st url t1 tr t2).2.2.resourceCalls = 0 ∧
    (httpGet st url t1 tr t2).2.2.refreshCalls = 1 ∧
    (httpGet st url t1 tr t2).2.2.unauthorizedCalls = 1 := by
  have hr1 : fetchWithAuth url st.session.accessToken t1 = (⟨401, none⟩, 0) := by
    rcases hexp with h | ⟨t, ht, hexpt⟩
    · simp [fetchWithAuth, h]
    · simp [fetchWithAuth, ht, hexpt]
  have hr2 : fetchWithAuth url st.session.accessToken t2 = (⟨401, none⟩, 0) := by
    rcases hexp with h | ⟨t, ht, hexpt⟩
    · simp [fetchWithAuth, h]
    · simp [fetchWithAuth, ht, isExpired_mono t h12 hexpt]
  cases hrf : (tryRefresh st tr).1 <;>
    simp [httpGet, hr1, hr2, hrf]

/-- C1 amended witness: with no access token at all, the call yields 401 with
no resource call, one refresh attempt, and one unauthorized callback. -/
theorem httpGet_c1_amended_witness :
    (httpGet ⟨⟨none, none, none⟩, none⟩ "secret" 0 0 0).1.status = 401 ∧
    (httpGet ⟨⟨none, none, none⟩, none⟩ "secret" 0 0 0).2.2.resourceCalls = 0 ∧
    (httpGet ⟨⟨none, none, none⟩, none⟩ "secret" 0 0 0).2.2.refreshCalls = 1 ∧
    (httpGet ⟨⟨none, none, none⟩, none⟩ "secret" 0 0 0).2.2.unauthorizedCalls = 1 :=
  httpGet_c1_amended ⟨⟨none, none, none⟩, none⟩ "secret" 0 0 0 (by decide) (Or.inl rfl)

/-- Helper: one `fetchWithAuth` performs at most one backend resource call. -/
theorem fetchWithAuth_resource_le_one (url : String) (token : Option Token)
    (now : Int) : (fetchWithAuth url token now).2 ≤ 1 := by
  cases token with
  | none => simp [fetchWithAuth]
  | some t =>
    by_cases h : isExpired t now = true <;> simp [fetchWithAuth, h]

/-- C4: every `get` call invokes the refresh operation at most once and the
backend resource operation at most twice; and whenever the first fetch is a
401, the refresh succeeds, and the retried fetch is again a 401, that second
401 response is what `get` returns, with exactly one refresh — no further
refresh or retry happens. -/
theorem httpGet_c4_bounds (st : AppState) (url : String) (t1 tr t2 : Int) :
    (httpGet st url t1 tr t2).2.2.refreshCalls ≤ 1 ∧
    (httpGet st url t1 tr t2).2.2.resourceCalls ≤ 2 ∧
    ((fetchWithAuth url st.session.accessToken t1).1.status = 401 →
      (tryRefresh st tr).1 = true →
      (fetchWithAuth url st.session.accessToken t2).1.status = 401 →
      (httpGet st url t1 tr t2).1 = (fetchWithAuth url st.session.accessToken t2).1 ∧
      (httpGet st url t1 tr t2).2.2.refreshCalls = 1) := by
  have hb1 := fetchWithAuth_resource_le_one url st.session.accessToken t1
  have hb2 := fetchWithAuth_resource_le_one url st.session.accessToken t2
  by_cases h1 : (fetchWithAuth url st.session.accessToken t1).1.status = 401
  · cases hrf : (tryRefresh st tr).1
    · refine ⟨?_, ?_, ?_⟩
      · simp [httpGet, h1, hrf]
      · simp [httpGet, h1, hrf]
        omega
      · simp [httpGet, h1, hrf]
    · by_cases h2 : (fetchWithAuth url st.session.accessToken t2).1.status = 401
      · refine ⟨?_, ?_, ?_⟩
        · simp [httpGet, h1, hrf, h2]
        · simp [httpGet, h1, hrf, h2]
          omega
        · simp [httpGet, h1, hrf, h2]
      · refine ⟨?_, ?_, ?_⟩
        · simp [httpGet, h1, hrf, h2]
        · simp [httpGet, h1, hrf, h2]
          omega
        · simp [httpGet, h1, hrf, h2]
  · refine ⟨?_, ?_, ?_⟩
    · simp [httpGet, h1]
    · simp [httpGet, h1]
      omega
    · simp [httpGet, h1]

/-- C4 witness: expired token, accepted refresh token — the first fetch is a
401, refresh succeeds, the (stale-token) retry is again a 401, and that second
401 is returned after exactly one refresh. -/
theorem httpGet_c4_witness :
    (httpGet ⟨⟨some ⟨1, "demo", ["USER"]⟩,
        some (Token.payload "header" ⟨1, "demo", ["USER"], some 10⟩ "signature"),
        some "rt"⟩, none⟩ "secret" 100 100 100).1
      = (fetchWithAuth "secret"
          (some (Token.payload "header" ⟨1, "demo", ["USER"], some 10⟩ "signature")) 100).1 ∧
    (httpGet ⟨⟨some ⟨1, "demo", ["USER"]⟩,
        some (Token.payload "header" ⟨1, "demo", ["USER"], some 10⟩ "signature"),
        some "rt"⟩, none⟩ "secret" 100 100 100).2.2.refreshCalls = 1 :=
  (httpGet_c4_bounds ⟨⟨some ⟨1, "demo", ["USER"]⟩,
      some (Token.payload "header" ⟨1, "demo", ["USER"], some 10⟩ "signature"),
      some "rt"⟩, none⟩ "secret" 100 100 100).2.2
    (by decide) (by decide) (by decide)
